import Mathlib

set_option linter.unusedVariables false

/- Shallow embedding of `sw_cli/commands/dev_requirements.py`: the dev
dependency provisioning and requirement dispatch engine.  Side effects
(subprocess calls, log lines, secret writes) are recorded as an explicit
trace of `Effect` values; subprocess failures are modelled with `Except`,
carrying the captured stderr as a string. -/

/-- Does the first character list stand at the head of the second? -/
def leadsList : List Char → List Char → Bool
| [], _ => true
| _ :: _, [] => false
| a :: as, b :: bs => a == b && leadsList as bs

/-- Substring containment on character lists, matching the semantics of
the Python expressions `key in valid_arguments` (when `valid_arguments`
is a string) and `marker in e.stderr`. -/
def occursInL : List Char → List Char → Bool
| needle, [] => needle.isEmpty
| needle, c :: rest => leadsList needle (c :: rest) || occursInL needle rest

/-- `occursIn needle hay` is Python's `needle in hay` on strings. -/
def occursIn (needle hay : String) : Bool :=
  occursInL needle.data hay.data

/-- Lookup in an association list modelling a Python `dict`
(keys are unique in any list that models an actual `dict`). -/
def lookupArg : List (String × String) → String → Option String
| [], _ => none
| kv :: rest, key => if kv.fst = key then some kv.snd else lookupArg rest key

/-- The `arguments: dict` handed to a requirement handler. -/
abbrev Arguments := List (String × String)

/-- The `redis-urls` global secret bundle: a key to literal-value mapping. -/
abbrev St := List (String × String)

/-- The ambient context dict; the handlers only read `KUBE_SERVICE_NAME`. -/
structure Context where
  KUBE_SERVICE_NAME : String

/-- Exceptions that can escape the engine: `sh.ErrorReturnCode` carrying
captured stderr, and Python's `KeyError` (from `arguments.pop`). -/
inductive Err where
| commandFailed (stderr : String)
| keyError (key : String)
  deriving DecidableEq

/-- Observable side effects of the engine, in order of occurrence. -/
inductive Effect where
| ensureRunning (dependencyName : String)
| runCmd (argv : List String)
| setSecret (key value : String)
| installSecrets
| startedProcess (logicalName : String)
| scannedUntilMarker (logicalName marker : String)
| warnInvalidArguments (arguments : List (String × String))
| warnNoKind (requirement : List (String × String))
| warnUnknownKind (kind : String)
| warnKeyspaceCleaned (cleaned : String)
| infoChecking (kind : String)
| infoSatisfied (kind : String)
| debugEnsuringDatabase (databaseName : String)
| debugDatabaseExists (databaseName : String)
| debugDatabaseCreated (databaseName : String)
| debugEnsuringTopic (topicName : String)
| debugTopicExists (topicName : String)
| debugTopicCreated (topicName : String)
| debugEnsuringSubscription (subscriptionName : String)
| debugSubscriptionExists (subscriptionName : String)
| debugSubscriptionCreated (subscriptionName : String)
| debugNoSubscription
| debugEnsuringKeyspace (keyspaceName : String)
| debugKeyspaceExists (keyspaceName : String)
| debugKeyspaceCreated (keyspaceName : String)
  deriving DecidableEq

/-- Modelled from the spec: the process-runner boundary of §6 used by
`KubernetesDependency.run_command` (module `sw_cli.dependencies`, not under
`src/`): executing an administrative command either succeeds or raises a
typed failure carrying the captured stderr bytes. -/
structure Env where
  cmdResult : List String → Except String Unit

/-- A `valid_arguments` class attribute.  In the source it is a tuple for
`Redis`, `Elasticsearch` and `PubSubEmulator`, but a plain string for
`Postgres` (`('name')`) and `Cassandra` (`('keyspace')`), where the tuple
comma is missing; Python's `in` then tests substring containment. -/
inductive ValidArgs where
| tupleArgs (ts : List String)
| strArgs (s : String)
  deriving DecidableEq

/-- Python's `key in self.valid_arguments`. -/
def keyAllowed : ValidArgs → String → Bool
| ValidArgs.tupleArgs ts, key => ts.contains key
| ValidArgs.strArgs s, key => occursIn key s

/-- The idiom `arguments.get(key) or self.context['KUBE_SERVICE_NAME']`:
a missing key and a falsy (empty) value both fall back to the ambient
service name. -/
def argOrService (arguments : Arguments) (key : String) (ctx : Context) : String :=
  match lookupArg arguments key with
  | some v => if v = "" then ctx.KUBE_SERVICE_NAME else v
  | none => ctx.KUBE_SERVICE_NAME

def PostgresDependency.name : String := "dev-postgres"

def PostgresDependency.started_log : String :=
  "PostgreSQL init process complete; ready for start up."

def ElasticsearchDependency.name : String := "dev-elasticsearch"

def ElasticsearchDependency.started_log : String := "] started"

def PubSubDependency.name : String := "dev-pubsub"

def PubSubDependency.started_log : String :=
  "[pubsub] INFO: Server started, listening on"

def RedisDependency.name : String := "dev-redis"

def RedisDependency.started_log : String :=
  "The server is now ready to accept connections"

def CassandraDependency.name : String := "dev-cassandra"

def CassandraDependency.started_log : String :=
  "Created default superuser role \x27cassandra\x27"

/-- A dependency as seen by the readiness ensurer (§3 of the spec). -/
structure DependencySpec where
  logical_name : String
  readiness_marker : String

def PostgresDependency.dependencySpec : DependencySpec :=
  { logical_name := PostgresDependency.name,
    readiness_marker := PostgresDependency.started_log }

/-- Modelled from the spec: `KubernetesDependency.ensure_running` (module
`sw_cli.dependencies`, not under `src/`).  Per §4.1: query whether a process
with the logical name exists; if absent, start it and scan its output until
a line containing the readiness marker appears; if it already existed, skip
the wait entirely. -/
def ReadinessEnsurer.ensure (processExists : String → Bool) (spec : DependencySpec) :
    List Effect :=
  if processExists spec.logical_name then []
  else [Effect.startedProcess spec.logical_name,
        Effect.scannedUntilMarker spec.logical_name spec.readiness_marker]

/-- `PostgresDependency.ensure_database_present`: run `createdb`, swallow a
failure whose stderr contains `already exists`, re-raise anything else. -/
def PostgresDependency.ensure_database_present (env : Env) (database_name : String) :
    List Effect × Except Err Unit :=
  let argv := ["createdb", database_name, "-U", "postgres"]
  let pre := [Effect.debugEnsuringDatabase database_name, Effect.runCmd argv]
  match env.cmdResult argv with
  | Except.ok _ => (pre ++ [Effect.debugDatabaseCreated database_name], Except.ok ())
  | Except.error stderr =>
    if occursIn "already exists" stderr then
      (pre ++ [Effect.debugDatabaseExists database_name], Except.ok ())
    else (pre, Except.error (Err.commandFailed stderr))

/-- `PubSubDependency.ensure_topic_present`. -/
def PubSubDependency.ensure_topic_present (env : Env) (topic_name : String) :
    List Effect × Except Err Unit :=
  let argv := ["pubsub_add_topic", topic_name]
  let pre := [Effect.debugEnsuringTopic topic_name, Effect.runCmd argv]
  match env.cmdResult argv with
  | Except.ok _ => (pre ++ [Effect.debugTopicCreated topic_name], Except.ok ())
  | Except.error stderr =>
    if occursIn "Topic already exists" stderr then
      (pre ++ [Effect.debugTopicExists topic_name], Except.ok ())
    else (pre, Except.error (Err.commandFailed stderr))

/-- `PubSubDependency.ensure_subscription_present`. -/
def PubSubDependency.ensure_subscription_present (env : Env)
    (topic_name subscription_name : String) : List Effect × Except Err Unit :=
  let argv := ["pubsub_add_subscription", topic_name, subscription_name]
  let pre := [Effect.debugEnsuringSubscription subscription_name, Effect.runCmd argv]
  match env.cmdResult argv with
  | Except.ok _ => (pre ++ [Effect.debugSubscriptionCreated subscription_name], Except.ok ())
  | Except.error stderr =>
    if occursIn "Subscription already exists" stderr then
      (pre ++ [Effect.debugSubscriptionExists subscription_name], Except.ok ())
    else (pre, Except.error (Err.commandFailed stderr))

/-- `c.replace('-', '_')` on a single-character pattern. -/
def dashToUnderscore (c : Char) : Char :=
  if c = '-' then '_' else c

/-- `original.replace('-', '_')`. -/
def replaceDashes (s : String) : String :=
  String.mk (s.data.map dashToUnderscore)

/-- The cql query string built by `CassandraDependency.ensure_database_present`. -/
def cqlQuery (keyspaceName : String) : String :=
  "create keyspace " ++ keyspaceName ++
    " with replication = \x7b\x27class\x27: \x27SimpleStrategy\x27, \x27replication_factor\x27: 1\x7d"

/-- `CassandraDependency.clean_keyspace_name`: rewrite dashes to underscores
and warn exactly when the name changed. -/
def CassandraDependency.clean_keyspace_name (original : String) :
    String × List Effect :=
  let cleaned := replaceDashes original
  if cleaned ≠ original then (cleaned, [Effect.warnKeyspaceCleaned cleaned])
  else (cleaned, [])

/-- `CassandraDependency.ensure_database_present`. -/
def CassandraDependency.ensure_database_present (env : Env) (keyspace_name : String) :
    List Effect × Except Err Unit :=
  let c := CassandraDependency.clean_keyspace_name keyspace_name
  let argv := ["cqlsh", "-e", cqlQuery c.1]
  let pre := c.2 ++ [Effect.debugEnsuringKeyspace c.1, Effect.runCmd argv]
  match env.cmdResult argv with
  | Except.ok _ => (pre ++ [Effect.debugKeyspaceCreated c.1], Except.ok ())
  | Except.error stderr =>
    if occursIn "already exists" stderr then
      (pre ++ [Effect.debugKeyspaceExists c.1], Except.ok ())
    else (pre, Except.error (Err.commandFailed stderr))

def Postgres.valid_arguments : ValidArgs := ValidArgs.strArgs "name"

/-- `Postgres.run`: ensure the postgres container is up, then ensure the
database (named argument or ambient service name) exists. -/
def Postgres.run (env : Env) (ctx : Context) (arguments : Arguments) (st : St) :
    List Effect × Except Err St :=
  let database_name := argOrService arguments "name" ctx
  let p := PostgresDependency.ensure_database_present env database_name
  (Effect.ensureRunning PostgresDependency.name :: p.1,
   match p.2 with
   | Except.ok _ => Except.ok st
   | Except.error e => Except.error e)

def Elasticsearch.valid_arguments : ValidArgs := ValidArgs.tupleArgs []

/-- `Elasticsearch.run`: only ensures the elasticsearch container is up. -/
def Elasticsearch.run (env : Env) (ctx : Context) (arguments : Arguments) (st : St) :
    List Effect × Except Err St :=
  ([Effect.ensureRunning ElasticsearchDependency.name], Except.ok st)

def PubSubEmulator.valid_arguments : ValidArgs :=
  ValidArgs.tupleArgs ["topic", "subscription"]

/-- `PubSubEmulator.run`: ensure the emulator is up, ensure the topic exists,
then ensure the subscription exists exactly when the key is given
(`arguments['subscription']` is read literally, with no falsy fallback). -/
def PubSubEmulator.run (env : Env) (ctx : Context) (arguments : Arguments) (st : St) :
    List Effect × Except Err St :=
  let topic_name := argOrService arguments "topic" ctx
  let p := PubSubDependency.ensure_topic_present env topic_name
  match p.2 with
  | Except.error e => (Effect.ensureRunning PubSubDependency.name :: p.1, Except.error e)
  | Except.ok _ =>
    match lookupArg arguments "subscription" with
    | none =>
      (Effect.ensureRunning PubSubDependency.name :: p.1 ++ [Effect.debugNoSubscription],
       Except.ok st)
    | some subscription_name =>
      let q := PubSubDependency.ensure_subscription_present env topic_name subscription_name
      (Effect.ensureRunning PubSubDependency.name :: p.1 ++ q.1,
       match q.2 with
       | Except.ok _ => Except.ok st
       | Except.error e => Except.error e)

/-- Modelled from the spec: `set_literal_secret` of the secret-store
manipulator (`sw_cli.kubernetes`, not under `src/`); per §6 it is a `put`
on a key to value bundle: overwrite the key if present, append otherwise. -/
def setLiteralSecret (bundle : St) (key value : String) : St :=
  match lookupArg bundle key with
  | some _ => bundle.map fun kv => if kv.fst = key then (key, value) else kv
  | none => bundle ++ [(key, value)]

def Redis.valid_arguments : ValidArgs := ValidArgs.tupleArgs ["name"]

/-- `Redis.reset_global_secrets`: if the key is absent from the `redis-urls`
bundle, append `redis://host:6379/count` (count = current size) and
re-install the bundle; otherwise do nothing. -/
def Redis.reset_global_secrets (redis_host : String) (secret_key : String) (st : St) :
    List Effect × St :=
  let redis_urls := st
  match lookupArg redis_urls secret_key with
  | some _ => ([], st)
  | none =>
    let count := redis_urls.length
    let value := "redis://" ++ redis_host ++ ":6379/" ++ toString count
    ([Effect.setSecret secret_key value, Effect.installSecrets],
     setLiteralSecret redis_urls secret_key value)

/-- `Redis.run`: ensure the redis container is up, then derive and persist
the connection secret for the named key (or the ambient service name). -/
def Redis.run (env : Env) (ctx : Context) (arguments : Arguments) (st : St) :
    List Effect × Except Err St :=
  let secret_key := argOrService arguments "name" ctx
  let p := Redis.reset_global_secrets RedisDependency.name secret_key st
  (Effect.ensureRunning RedisDependency.name :: p.1, Except.ok p.2)

def Cassandra.valid_arguments : ValidArgs := ValidArgs.strArgs "keyspace"

/-- `Cassandra.run`. -/
def Cassandra.run (env : Env) (ctx : Context) (arguments : Arguments) (st : St) :
    List Effect × Except Err St :=
  let keyspace_name := argOrService arguments "keyspace" ctx
  let p := CassandraDependency.ensure_database_present env keyspace_name
  (Effect.ensureRunning CassandraDependency.name :: p.1,
   match p.2 with
   | Except.ok _ => Except.ok st
   | Except.error e => Except.error e)

/-- `Requirement.__call__`: run the handler when every argument key passes
`key in valid_arguments`, otherwise warn and skip. -/
def Requirement.call (valid : ValidArgs)
    (runFn : Arguments → St → List Effect × Except Err St)
    (arguments : Arguments) (st : St) : List Effect × Except Err St :=
  if arguments.all (fun kv => keyAllowed valid kv.fst) then runFn arguments st
  else ([Effect.warnInvalidArguments arguments], Except.ok st)

/-- The five handler classes registered in `RequirementsDispatcher.commands`. -/
inductive HandlerKind where
| postgres
| redis
| elastic
| pubsub
| cassandra
  deriving DecidableEq

def handlerValidArguments : HandlerKind → ValidArgs
| HandlerKind.postgres => Postgres.valid_arguments
| HandlerKind.redis => Redis.valid_arguments
| HandlerKind.elastic => Elasticsearch.valid_arguments
| HandlerKind.pubsub => PubSubEmulator.valid_arguments
| HandlerKind.cassandra => Cassandra.valid_arguments

def handlerRun : HandlerKind → Env → Context → Arguments → St → List Effect × Except Err St
| HandlerKind.postgres => Postgres.run
| HandlerKind.redis => Redis.run
| HandlerKind.elastic => Elasticsearch.run
| HandlerKind.pubsub => PubSubEmulator.run
| HandlerKind.cassandra => Cassandra.run

/-- `arguments = requirement.copy(); arguments.pop('kind')`: the entry
without its `kind` key. -/
def removeKey : List (String × String) → String → List (String × String)
| [], _ => []
| kv :: rest, key =>
  if kv.fst = key then removeKey rest key else kv :: removeKey rest key

/-- The `RequirementsDispatcher.commands` lookup table. -/
def RequirementsDispatcher.commands (kind : String) : Option HandlerKind :=
  if kind = "postgres" then some HandlerKind.postgres
  else if kind = "redis" then some HandlerKind.redis
  else if kind = "elastic" then some HandlerKind.elastic
  else if kind = "pubsub" then some HandlerKind.pubsub
  else if kind = "cassandra" then some HandlerKind.cassandra
  else none

/-- `RequirementsDispatcher.dispatch`: pop `kind`, look its handler up
(warn and skip when unknown), construct it and call it on the remaining
arguments; log satisfaction only when the handler returned normally. -/
def RequirementsDispatcher.dispatch (env : Env) (ctx : Context)
    (requirement : Arguments) (st : St) : List Effect × Except Err St :=
  match lookupArg requirement "kind" with
  | none => ([], Except.error (Err.keyError "kind"))
  | some kind =>
    let arguments := removeKey requirement "kind"
    match RequirementsDispatcher.commands kind with
    | none => ([Effect.infoChecking kind, Effect.warnUnknownKind kind], Except.ok st)
    | some h =>
      let p := Requirement.call (handlerValidArguments h) (handlerRun h env ctx) arguments st
      match p.2 with
      | Except.ok st2 =>
        (Effect.infoChecking kind :: p.1 ++ [Effect.infoSatisfied kind], Except.ok st2)
      | Except.error e2 => (Effect.infoChecking kind :: p.1, Except.error e2)

/-- The body of the `dispatch_all` loop for one entry: skip (with a warning)
an entry without a `kind` key, dispatch it otherwise. -/
def RequirementsDispatcher.step (env : Env) (ctx : Context)
    (requirement : Arguments) (st : St) : List Effect × Except Err St :=
  if (lookupArg requirement "kind").isSome then
    RequirementsDispatcher.dispatch env ctx requirement st
  else ([Effect.warnNoKind requirement], Except.ok st)

/-- `RequirementsDispatcher.dispatch_all`: process entries in order; an
uncaught exception from one entry aborts the rest of the loop. -/
def RequirementsDispatcher.dispatch_all (env : Env) (ctx : Context) :
    List Arguments → St → List Effect × Except Err St
| [], st => ([], Except.ok st)
| requirement :: rest, st =>
  let p := RequirementsDispatcher.step env ctx requirement st
  match p.2 with
  | Except.ok st2 =>
    let q := RequirementsDispatcher.dispatch_all env ctx rest st2
    (p.1 ++ q.1, q.2)
  | Except.error e => (p.1, Except.error e)

/-- Environment in which every administrative command succeeds. -/
def okEnv : Env := { cmdResult := fun _ => Except.ok () }

/-- Environment in which every administrative command fails with an
unmatched stderr. -/
def failEnv : Env := { cmdResult := fun _ => Except.error "boom" }

/-- Environment whose commands fail with the already-exists diagnostic. -/
def alreadyExistsEnv : Env :=
  { cmdResult := fun _ => Except.error "ERROR: database \"x\" already exists" }

/-- Environment whose commands fail with a permission diagnostic. -/
def permissionDeniedEnv : Env :=
  { cmdResult := fun _ => Except.error "ERROR: permission denied" }

def testCtx : Context := { KUBE_SERVICE_NAME := "svc" }

def alwaysRunning : String → Bool := fun _ => true

theorem clean_keyspace_name_eq (s : String) :
    CassandraDependency.clean_keyspace_name s =
      (replaceDashes s,
       if replaceDashes s ≠ s then [Effect.warnKeyspaceCleaned (replaceDashes s)] else []) := by
  unfold CassandraDependency.clean_keyspace_name
  by_cases h : replaceDashes s = s <;> simp [h]

theorem mapDash_idem (l : List Char) :
    (l.map dashToUnderscore).map dashToUnderscore = l.map dashToUnderscore := by
  induction l with
  | nil => rfl
  | cons c t ih =>
    simp only [List.map_cons, ih]
    congr 1
    by_cases hc : c = '-'
    · simp [dashToUnderscore, hc]
    · simp [dashToUnderscore, hc]

theorem mapDash_no_dash (l : List Char) :
    ((l.map dashToUnderscore).all fun c => decide (c ≠ '-')) = true := by
  induction l with
  | nil => rfl
  | cons c t ih =>
    simp only [List.map_cons, List.all_cons, ih, Bool.and_true]
    by_cases hc : c = '-' <;> simp [dashToUnderscore, hc]

/-- Claim C10: keyspace-name sanitization is idempotent (sanitizing twice
equals sanitizing once) and not injective: the distinct inputs
`"my-service"` and `"my_service"` sanitize to the same keyspace name. -/
theorem clean_keyspace_idempotent_not_injective :
    (∀ s : String, replaceDashes (replaceDashes s) = replaceDashes s) ∧
    (CassandraDependency.clean_keyspace_name "my-service").1 =
      (CassandraDependency.clean_keyspace_name "my_service").1 ∧
    "my-service" ≠ "my_service" :=
  ⟨fun s => congrArg String.mk (mapDash_idem s.data), by decide, by decide⟩

/-- Claim C4: cassandra keyspace provisioning rewrites every dash in the
name to an underscore before building the create-keyspace command, warns
exactly when the name changed, issues the creation command with the
sanitized name, and the sanitized name never contains a dash; input
`"my-service"` becomes `"my_service"`. -/
theorem cassandra_keyspace_sanitization (env : Env) (name : String) :
    ((CassandraDependency.ensure_database_present env name).1 =
      (if replaceDashes name ≠ name then
         [Effect.warnKeyspaceCleaned (replaceDashes name)] else []) ++
        [Effect.debugEnsuringKeyspace (replaceDashes name),
         Effect.runCmd ["cqlsh", "-e", cqlQuery (replaceDashes name)]] ++
        (match env.cmdResult ["cqlsh", "-e", cqlQuery (replaceDashes name)] with
         | Except.ok _ => [Effect.debugKeyspaceCreated (replaceDashes name)]
         | Except.error stderr =>
           if occursIn "already exists" stderr then
             [Effect.debugKeyspaceExists (replaceDashes name)]
           else [])) ∧
    replaceDashes "my-service" = "my_service" ∧
    ((replaceDashes name).data.all fun c => decide (c ≠ '-')) = true := by
  refine ⟨?_, by decide, mapDash_no_dash name.data⟩
  cases hc : env.cmdResult ["cqlsh", "-e", cqlQuery (replaceDashes name)] with
  | ok u =>
    simp [CassandraDependency.ensure_database_present, clean_keyspace_name_eq, hc]
  | error stderr =>
    simp only [CassandraDependency.ensure_database_present, clean_keyspace_name_eq, hc]
    split <;> simp

/-- Claim C2: deriving the redis connection secret for a key already in the
bundle performs no write and no install and leaves the bundle unchanged;
for an absent key it writes exactly one new entry whose value is
`redis://host:6379/n` with `n` the size of the bundle before the write,
then installs the full bundle. -/
theorem redis_secret_index_spec (host key : String) (st : St) :
    (∀ v, lookupArg st key = some v → Redis.reset_global_secrets host key st = ([], st)) ∧
    (lookupArg st key = none →
      Redis.reset_global_secrets host key st =
        ([Effect.setSecret key ("redis://" ++ host ++ ":6379/" ++ toString st.length),
          Effect.installSecrets],
         st ++ [(key, "redis://" ++ host ++ ":6379/" ++ toString st.length)])) := by
  constructor
  · intro v h
    simp [Redis.reset_global_secrets, h]
  · intro h
    simp [Redis.reset_global_secrets, setLiteralSecret, h]

theorem redis_secret_index_spec_witness :
    Redis.reset_global_secrets "dev-redis" "k" [] =
      ([Effect.setSecret "k"
          ("redis://" ++ "dev-redis" ++ ":6379/" ++ toString (List.length ([] : St))),
        Effect.installSecrets],
       [] ++ [("k", "redis://" ++ "dev-redis" ++ ":6379/" ++ toString (List.length ([] : St)))]) :=
  (redis_secret_index_spec "dev-redis" "k" []).2 rfl

/-- Claim C8: when the backing process already exists the readiness ensurer
performs no start action and returns without scanning the output stream;
the stream is scanned for the marker exactly when the process was started
within this call. -/
theorem readiness_skip_when_running (processExists : String → Bool) (spec : DependencySpec) :
    (processExists spec.logical_name = true →
      ReadinessEnsurer.ensure processExists spec = []) ∧
    (Effect.scannedUntilMarker spec.logical_name spec.readiness_marker ∈
        ReadinessEnsurer.ensure processExists spec ↔
      Effect.startedProcess spec.logical_name ∈ ReadinessEnsurer.ensure processExists spec) := by
  constructor
  · intro h; simp [ReadinessEnsurer.ensure, h]
  · by_cases h : processExists spec.logical_name <;> simp [ReadinessEnsurer.ensure, h]

theorem readiness_skip_when_running_witness :
    ReadinessEnsurer.ensure alwaysRunning PostgresDependency.dependencySpec = [] :=
  (readiness_skip_when_running alwaysRunning PostgresDependency.dependencySpec).1 rfl

/-- Claim C1 is violated by the code: `Postgres.valid_arguments` is the
string `name` (the tuple comma is missing, unlike `Redis`), so the
validation `key in valid_arguments` tests substring containment; the
argument key `nam`, which is not the whitelisted key `name`, is accepted
and the handler runs its provisioning steps instead of warning and
skipping. -/
theorem postgres_substring_key_runs_provisioning :
    "nam" ≠ "name" ∧
    keyAllowed Postgres.valid_arguments "nam" = true ∧
    Requirement.call Postgres.valid_arguments (Postgres.run okEnv testCtx) [("nam", "x")] [] =
      ([Effect.ensureRunning "dev-postgres", Effect.debugEnsuringDatabase "svc",
        Effect.runCmd ["createdb", "svc", "-U", "postgres"],
        Effect.debugDatabaseCreated "svc"],
       Except.ok []) :=
  ⟨by decide, rfl, rfl⟩

/-- Claim C3: a failed provisioning command is swallowed and treated as
success exactly when its stderr contains the kind's already-exists marker
as a substring, and any other failure is re-raised carrying the original
stderr; concretely, stderr `ERROR: database "x" already exists` resolves
as success and stderr `ERROR: permission denied` propagates as fatal. -/
theorem provisioning_failure_classification (env : Env)
    (name topic sub stderr : String) :
    (env.cmdResult ["createdb", name, "-U", "postgres"] = Except.error stderr →
      PostgresDependency.ensure_database_present env name =
        ([Effect.debugEnsuringDatabase name,
          Effect.runCmd ["createdb", name, "-U", "postgres"]] ++
           (if occursIn "already exists" stderr then
              [Effect.debugDatabaseExists name] else []),
         if occursIn "already exists" stderr then Except.ok ()
         else Except.error (Err.commandFailed stderr))) ∧
    (env.cmdResult ["pubsub_add_topic", topic] = Except.error stderr →
      PubSubDependency.ensure_topic_present env topic =
        ([Effect.debugEnsuringTopic topic, Effect.runCmd ["pubsub_add_topic", topic]] ++
           (if occursIn "Topic already exists" stderr then
              [Effect.debugTopicExists topic] else []),
         if occursIn "Topic already exists" stderr then Except.ok ()
         else Except.error (Err.commandFailed stderr))) ∧
    (env.cmdResult ["pubsub_add_subscription", topic, sub] = Except.error stderr →
      PubSubDependency.ensure_subscription_present env topic sub =
        ([Effect.debugEnsuringSubscription sub,
          Effect.runCmd ["pubsub_add_subscription", topic, sub]] ++
           (if occursIn "Subscription already exists" stderr then
              [Effect.debugSubscriptionExists sub] else []),
         if occursIn "Subscription already exists" stderr then Except.ok ()
         else Except.error (Err.commandFailed stderr))) ∧
    (env.cmdResult ["cqlsh", "-e", cqlQuery (replaceDashes name)] = Except.error stderr →
      (CassandraDependency.ensure_database_present env name).2 =
        (if occursIn "already exists" stderr then Except.ok ()
         else Except.error (Err.commandFailed stderr))) ∧
    (PostgresDependency.ensure_database_present alreadyExistsEnv "x").2 = Except.ok () ∧
    (PostgresDependency.ensure_database_present permissionDeniedEnv "x").2 =
      Except.error (Err.commandFailed "ERROR: permission denied") := by
  refine ⟨?_, ?_, ?_, ?_, rfl, rfl⟩
  · intro h
    simp only [PostgresDependency.ensure_database_present, h]
    split <;> simp
  · intro h
    simp only [PubSubDependency.ensure_topic_present, h]
    split <;> simp
  · intro h
    simp only [PubSubDependency.ensure_subscription_present, h]
    split <;> simp
  · intro h
    simp only [CassandraDependency.ensure_database_present, clean_keyspace_name_eq, h]
    split <;> simp

theorem provisioning_failure_classification_witness :
    PostgresDependency.ensure_database_present alreadyExistsEnv "x" =
      ([Effect.debugEnsuringDatabase "x",
        Effect.runCmd ["createdb", "x", "-U", "postgres"]] ++
         (if occursIn "already exists" "ERROR: database \"x\" already exists" then
            [Effect.debugDatabaseExists "x"] else []),
       if occursIn "already exists" "ERROR: database \"x\" already exists" then Except.ok ()
       else Except.error (Err.commandFailed "ERROR: database \"x\" already exists")) :=
  (provisioning_failure_classification alreadyExistsEnv "x" "t" "s"
    "ERROR: database \"x\" already exists").1 rfl

/-- Claim C5: `dispatch_all` processes entries in input order; a fatal
failure in one entry propagates to the caller, no later entry is
processed or retried, and the effects of earlier entries are kept. -/
theorem dispatch_all_fatal_aborts (env : Env) (ctx : Context)
    (pre : List Arguments) (req : Arguments) (rest : List Arguments)
    (st : St) (t1 : List Effect) (st1 : St) (e : Err)
    (h1 : RequirementsDispatcher.dispatch_all env ctx pre st = (t1, Except.ok st1))
    (h2 : (RequirementsDispatcher.step env ctx req st1).2 = Except.error e) :
    RequirementsDispatcher.dispatch_all env ctx (pre ++ req :: rest) st =
      (t1 ++ (RequirementsDispatcher.step env ctx req st1).1, Except.error e) := by
  induction pre generalizing st t1 with
  | nil =>
    simp only [RequirementsDispatcher.dispatch_all, Prod.mk.injEq, Except.ok.injEq] at h1
    obtain ⟨h1a, h1b⟩ := h1
    subst h1a
    subst h1b
    simp only [List.nil_append, RequirementsDispatcher.dispatch_all, h2]
  | cons a pre ih =>
    rw [List.cons_append]
    simp only [RequirementsDispatcher.dispatch_all] at h1 ⊢
    cases hsa : (RequirementsDispatcher.step env ctx a st).2 with
    | error ea =>
      rw [hsa] at h1
      simp at h1
    | ok st2 =>
      simp only [hsa] at h1 ⊢
      simp only [Prod.mk.injEq] at h1
      obtain ⟨hta, hrb⟩ := h1
      have hpre : RequirementsDispatcher.dispatch_all env ctx pre st2 =
          ((RequirementsDispatcher.dispatch_all env ctx pre st2).1, Except.ok st1) := by
        rw [← hrb]
      have hrec := ih st2 ((RequirementsDispatcher.dispatch_all env ctx pre st2).1) hpre
      rw [hrec, ← hta, List.append_assoc]

theorem dispatch_all_fatal_aborts_witness :
    RequirementsDispatcher.dispatch_all failEnv testCtx
        ([] ++ [("kind", "postgres")] :: [[("kind", "redis")]]) [] =
      ([] ++ (RequirementsDispatcher.step failEnv testCtx [("kind", "postgres")] []).1,
       Except.error (Err.commandFailed "boom")) :=
  dispatch_all_fatal_aborts failEnv testCtx [] [("kind", "postgres")] [[("kind", "redis")]]
    [] [] [] (Err.commandFailed "boom") rfl rfl

/-- Claim C6: an entry without a `kind` key, or with an unknown `kind`, is
skipped with a warning and no exception, and the loop continues with the
next entry; concretely the list with an unknown-kind entry followed by a
postgres entry still executes the postgres entry to completion. -/
theorem dispatch_skips_invalid_kind (env : Env) (ctx : Context)
    (req : Arguments) (rest : List Arguments) (st : St) :
    (lookupArg req "kind" = none →
      RequirementsDispatcher.dispatch_all env ctx (req :: rest) st =
        (Effect.warnNoKind req :: (RequirementsDispatcher.dispatch_all env ctx rest st).1,
         (RequirementsDispatcher.dispatch_all env ctx rest st).2)) ∧
    (∀ k, lookupArg req "kind" = some k → RequirementsDispatcher.commands k = none →
      RequirementsDispatcher.dispatch_all env ctx (req :: rest) st =
        (Effect.infoChecking k :: Effect.warnUnknownKind k ::
           (RequirementsDispatcher.dispatch_all env ctx rest st).1,
         (RequirementsDispatcher.dispatch_all env ctx rest st).2)) ∧
    RequirementsDispatcher.dispatch_all okEnv testCtx
        [[("kind", "unknown")], [("kind", "postgres"), ("name", "x")]] [] =
      ([Effect.infoChecking "unknown", Effect.warnUnknownKind "unknown",
        Effect.infoChecking "postgres", Effect.ensureRunning "dev-postgres",
        Effect.debugEnsuringDatabase "x",
        Effect.runCmd ["createdb", "x", "-U", "postgres"],
        Effect.debugDatabaseCreated "x", Effect.infoSatisfied "postgres"],
       Except.ok []) := by
  refine ⟨?_, ?_, rfl⟩
  · intro h
    simp [RequirementsDispatcher.dispatch_all, RequirementsDispatcher.step, h]
  · intro k hk hcmd
    simp [RequirementsDispatcher.dispatch_all, RequirementsDispatcher.step,
          RequirementsDispatcher.dispatch, hk, hcmd]

theorem dispatch_skips_invalid_kind_witness :
    RequirementsDispatcher.dispatch_all okEnv testCtx ([] :: []) [] =
      (Effect.warnNoKind [] :: (RequirementsDispatcher.dispatch_all okEnv testCtx [] []).1,
       (RequirementsDispatcher.dispatch_all okEnv testCtx [] []).2) :=
  (dispatch_skips_invalid_kind okEnv testCtx [] [] []).1 rfl

theorem ensure_topic_present_trace (env : Env) (t : String) :
    (PubSubDependency.ensure_topic_present env t).1 =
      [Effect.debugEnsuringTopic t, Effect.runCmd ["pubsub_add_topic", t]] ++
        (match env.cmdResult ["pubsub_add_topic", t] with
         | Except.ok _ => [Effect.debugTopicCreated t]
         | Except.error stderr =>
           if occursIn "Topic already exists" stderr then
             [Effect.debugTopicExists t]
           else []) := by
  unfold PubSubDependency.ensure_topic_present
  cases h : env.cmdResult ["pubsub_add_topic", t] with
  | ok u => simp [h]
  | error s =>
    by_cases ho : occursIn "Topic already exists" s = true <;> simp [h, ho]

theorem ensure_subscription_present_trace (env : Env) (t s : String) :
    (PubSubDependency.ensure_subscription_present env t s).1 =
      [Effect.debugEnsuringSubscription s,
       Effect.runCmd ["pubsub_add_subscription", t, s]] ++
        (match env.cmdResult ["pubsub_add_subscription", t, s] with
         | Except.ok _ => [Effect.debugSubscriptionCreated s]
         | Except.error stderr =>
           if occursIn "Subscription already exists" stderr then
             [Effect.debugSubscriptionExists s]
           else []) := by
  unfold PubSubDependency.ensure_subscription_present
  cases h : env.cmdResult ["pubsub_add_subscription", t, s] with
  | ok u => simp [h]
  | error s2 =>
    by_cases ho : occursIn "Subscription already exists" s2 = true <;> simp [h, ho]

/-- Claim C7: a pubsub requirement first ensures the emulator is running,
then ensures the topic (the `topic` argument, or the ambient service name)
is present, and ensures the subscription on that topic exactly when the
`subscription` key is given; the topic command always precedes the
subscription command and no subscription command is issued when the key
is absent. -/
theorem pubsub_composition_order (env : Env) (ctx : Context) (args : Arguments) (st : St)
    (htop : (PubSubDependency.ensure_topic_present env
        (argOrService args "topic" ctx)).2 = Except.ok ()) :
    ((PubSubEmulator.run env ctx args st).1.head? =
      some (Effect.ensureRunning "dev-pubsub")) ∧
    Effect.runCmd ["pubsub_add_topic", argOrService args "topic" ctx] ∈
      (PubSubEmulator.run env ctx args st).1 ∧
    (lookupArg args "subscription" = none →
      PubSubEmulator.run env ctx args st =
        (Effect.ensureRunning "dev-pubsub" ::
           (PubSubDependency.ensure_topic_present env (argOrService args "topic" ctx)).1 ++
           [Effect.debugNoSubscription],
         Except.ok st) ∧
      ∀ t s, Effect.runCmd ["pubsub_add_subscription", t, s] ∉
        (PubSubEmulator.run env ctx args st).1) ∧
    (∀ s, lookupArg args "subscription" = some s →
      PubSubEmulator.run env ctx args st =
        (Effect.ensureRunning "dev-pubsub" ::
           (PubSubDependency.ensure_topic_present env (argOrService args "topic" ctx)).1 ++
           (PubSubDependency.ensure_subscription_present env
              (argOrService args "topic" ctx) s).1,
         match (PubSubDependency.ensure_subscription_present env
                  (argOrService args "topic" ctx) s).2 with
         | Except.ok _ => Except.ok st
         | Except.error e => Except.error e) ∧
      Effect.runCmd ["pubsub_add_subscription", argOrService args "topic" ctx, s] ∈
        (PubSubDependency.ensure_subscription_present env
           (argOrService args "topic" ctx) s).1) := by
  refine ⟨?_, ?_, ?_, ?_⟩
  · cases hsub : lookupArg args "subscription" with
    | none => simp [PubSubEmulator.run, PubSubDependency.name, htop, hsub]
    | some s => simp [PubSubEmulator.run, PubSubDependency.name, htop, hsub]
  · cases hsub : lookupArg args "subscription" with
    | none =>
      simp [PubSubEmulator.run, PubSubDependency.name, htop, hsub,
            ensure_topic_present_trace]
    | some s =>
      simp [PubSubEmulator.run, PubSubDependency.name, htop, hsub,
            ensure_topic_present_trace]
  · intro hsub
    constructor
    · simp [PubSubEmulator.run, PubSubDependency.name, htop, hsub]
    · intro t s
      simp only [PubSubEmulator.run, PubSubDependency.name, htop, hsub,
                 ensure_topic_present_trace]
      cases hcmd : env.cmdResult ["pubsub_add_topic", argOrService args "topic" ctx] with
      | ok u => simp [hcmd]
      | error stderr =>
        by_cases ho : occursIn "Topic already exists" stderr = true <;> simp [hcmd, ho]
  · intro s hsub
    constructor
    · simp [PubSubEmulator.run, PubSubDependency.name, htop, hsub]
    · simp [ensure_subscription_present_trace]

theorem pubsub_composition_order_witness :
    ((PubSubEmulator.run okEnv testCtx [] []).1.head? =
      some (Effect.ensureRunning "dev-pubsub")) :=
  (pubsub_composition_order okEnv testCtx [] [] rfl).1

theorem lookupArg_removeKey_self (args : Arguments) (k : String) :
    lookupArg (removeKey args k) k = none := by
  induction args with
  | nil => rfl
  | cons kv rest ih =>
    by_cases h : kv.fst = k <;> simp [removeKey, h, lookupArg, ih]

theorem lookupArg_removeKey_other (args : Arguments) (k q : String) (hne : q ≠ k) :
    lookupArg (removeKey args k) q = lookupArg args q := by
  induction args with
  | nil => rfl
  | cons kv rest ih =>
    by_cases h : kv.fst = k
    · have hkq : kv.fst ≠ q := by rw [h]; exact Ne.symm hne
      simp [removeKey, h, lookupArg, hkq, ih, Ne.symm hne]
    · by_cases h2 : kv.fst = q <;> simp [removeKey, h, lookupArg, h2, ih, hne]

/-- Claim C9: for postgres, redis and cassandra, and for the pubsub `topic`
argument, an empty-string argument value behaves like an absent argument
(the ambient service name is used instead), while an explicitly given
empty-string pubsub `subscription` value is used literally as the
subscription name. -/
theorem empty_string_argument_fallback (env : Env) (ctx : Context) (st : St)
    (args : Arguments) :
    (lookupArg args "name" = some "" →
      Postgres.run env ctx args st = Postgres.run env ctx [] st) ∧
    (lookupArg args "name" = some "" →
      Redis.run env ctx args st = Redis.run env ctx [] st) ∧
    (lookupArg args "keyspace" = some "" →
      Cassandra.run env ctx args st = Cassandra.run env ctx [] st) ∧
    (lookupArg args "topic" = some "" →
      PubSubEmulator.run env ctx args st =
        PubSubEmulator.run env ctx (removeKey args "topic") st) ∧
    PubSubEmulator.run okEnv ctx [("subscription", "")] st =
      ([Effect.ensureRunning "dev-pubsub",
        Effect.debugEnsuringTopic ctx.KUBE_SERVICE_NAME,
        Effect.runCmd ["pubsub_add_topic", ctx.KUBE_SERVICE_NAME],
        Effect.debugTopicCreated ctx.KUBE_SERVICE_NAME,
        Effect.debugEnsuringSubscription "",
        Effect.runCmd ["pubsub_add_subscription", ctx.KUBE_SERVICE_NAME, ""],
        Effect.debugSubscriptionCreated ""],
       Except.ok st) := by
  refine ⟨?_, ?_, ?_, ?_, ?_⟩
  · intro h
    simp [Postgres.run, argOrService, h, lookupArg]
  · intro h
    simp [Redis.run, argOrService, h, lookupArg]
  · intro h
    simp [Cassandra.run, argOrService, h, lookupArg]
  · intro h
    have hsub := lookupArg_removeKey_other args "topic" "subscription" (by decide)
    simp [PubSubEmulator.run, argOrService, h, lookupArg_removeKey_self, hsub]
  · rfl

theorem empty_string_argument_fallback_witness :
    Postgres.run okEnv testCtx [("name", "")] [] = Postgres.run okEnv testCtx [] [] :=
  (empty_string_argument_fallback okEnv testCtx [] [("name", "")]).1 rfl
